import Mathlib

/-!
Verification of the request-orchestration and credential-lifecycle layer of the
face-liveness HTTP service (SfTServerCmd/MIServer.cpp) against its specification.

The C++ handler `MyRequestHandler::OnProcessProc` and the launch / refresh code
are shallowly embedded below.  Engine scores are C `float`s compared against the
exactly representable constant 0.5; they are modelled as rationals, which keeps
every comparison in the source exact.  The external engine, the credential store
and the transport layer are black boxes: each is represented by the data it
hands back to the handler (an outcome per attempt, a read result, a parsed
body), universally quantified in the theorems.
-/

/-- The fields of the license record `ST_RESPONSE` that the handler reads
(product identifier set before `mil_read_license`, expiration instant read at
MIServer.cpp:119 and 301). -/
structure STRESPONSE where
  m_nProduct : Int
  m_lExpire : Int
deriving Repr, DecidableEq

/-- A fault (C++ exception of the `Poco::Exception` family caught at
MIServer.cpp:161 and 241), carrying its display text. -/
structure Fault where
  displayText : String
deriving Repr, DecidableEq

/-- `CQualityResult_t` from FaceSDK_C_Api.h:163-168. -/
structure CQualityResult where
  score : ℚ
  class_flag : Bool
  ok : Bool
deriving Repr, DecidableEq

/-- `CLivenessResult_t` from FaceSDK_C_Api.h:174-179. -/
structure CLivenessResult where
  score : ℚ
  probability : ℚ
  ok : Bool
deriving Repr, DecidableEq

/-- `CPipelineResult_t` from FaceSDK_C_Api.h:185-188. -/
structure CPipelineResult where
  quality_result : CQualityResult
  liveness_result : CLivenessResult
deriving Repr, DecidableEq

/-- The `OK` ("no errors") sentinel of `enum STATUS` in FaceSDK_C_Api.h:69-102:
twenty-three constructors (FACE_TOO_CLOSE .. UNKNOWN) precede it, so its value
as a C `int` is 23.  The handler initializes `err` to it (MIServer.cpp:111) and
tests `err == OK` (MIServer.cpp:217). -/
def STATUS_OK : Int := 23

/-- What one engine invocation (image_create_path + pipeline_check_liveness +
image_destroy, MIServer.cpp:187-189) hands back to the handler: either the
`CPipelineResult_t` together with the out-of-band error code and message
buffer, or a fault propagating out of the call stack. -/
inductive EngineOutcome
  | ok (result : CPipelineResult) (err : Int) (msg : String)
  | fault (e : Fault)
deriving Repr, DecidableEq

/-- The literal of MIServer.cpp:191 against which the message is compared. -/
def licenseErrorLiteral : String := "License error: license is not installed"

/-- `_stricmp(a, b) == 0` (MIServer.cpp:192): the two strings are equal after
lowering each character (ASCII case folding, as `_stricmp` does with the
default C locale). -/
def stricmpEq (a b : String) : Bool :=
  a.data.map Char.toLower == b.data.map Char.toLower

/-- The loop-carried variables of the attempt loop: `result`, `err`, `msg`
(MIServer.cpp:110-111, 179). -/
structure LoopState where
  result : CPipelineResult
  err : Int
  msg : String
deriving Repr, DecidableEq

/-- Observable actions of the attempt loop: an engine invocation on attempt
`i` (MIServer.cpp:187-189), the destruction of the global pipeline handle
(MIServer.cpp:193) and its reinitialization `setting_init(flag)`
(MIServer.cpp:194). -/
inductive LoopEvent
  | invoke (i : Nat)
  | destroyPipeline
  | settingInit (flag : Nat)
deriving Repr, DecidableEq

/-- Initial values of the loop-carried variables: `err` is initialized to the
`OK` sentinel (MIServer.cpp:111); `result` and `msg` are uninitialized in the
C++ source and are given placeholder values here — the loop bound is 2 > 0, so
the first attempt always overwrites them before use. -/
def initLoopState : LoopState :=
  { result := { quality_result := { score := 0, class_flag := false, ok := false },
                liveness_result := { score := 0, probability := 0, ok := false } },
    err := STATUS_OK,
    msg := "" }

/-- Body of `for (int i = 0; i < 2; i++)` (MIServer.cpp:181-199), with
`fuel = 2 - i` making the bound explicit.  Each iteration invokes the engine
(attempt `i`), overwrites the loop-carried variables, and compares `msg`
case-insensitively against `licenseErrorLiteral`: on a match it destroys the
pipeline handle, calls `setting_init(1)`, and continues; otherwise it breaks.
A fault during the invocation aborts the loop and propagates. -/
def runAttempts (att : Nat → EngineOutcome) :
    Nat → Nat → LoopState → List LoopEvent → Except Fault LoopState × List LoopEvent
  | 0, _, st, evs => (Except.ok st, evs)
  | fuel + 1, i, _, evs =>
    let evs := evs ++ [LoopEvent.invoke i]
    match att i with
    | EngineOutcome.fault e => (Except.error e, evs)
    | EngineOutcome.ok r er m =>
      let st : LoopState := { result := r, err := er, msg := m }
      if stricmpEq m licenseErrorLiteral then
        runAttempts att fuel (i + 1) st
          (evs ++ [LoopEvent.destroyPipeline, LoopEvent.settingInit 1])
      else
        (Except.ok st, evs)

/-- The attempt loop of MIServer.cpp:181-199: at most two attempts, starting
at `i = 0`. -/
def attemptLoop (att : Nat → EngineOutcome) : Except Fault LoopState × List LoopEvent :=
  runAttempts att 2 0 initLoopState []

/-- The verdict classification of MIServer.cpp:207-215, first match wins. -/
def verdictString (r : CPipelineResult) : String :=
  if r.quality_result.score < 1/2 then "Image has a bad quality"
  else if r.liveness_result.probability ≥ 1/2 then "Image is genuine"
  else "Image is spoofed"

/-- A JSON value as placed into the Poco JSON object `root`. -/
inductive JsonVal
  | num (q : ℚ)
  | str (s : String)
deriving Repr, DecidableEq

/-- The JSON object assembled at MIServer.cpp:201-222, in `set` order; the
trailing spaces inside the keys are as emitted by the source. -/
def mkRoot (st : LoopState) : List (String × JsonVal) :=
  [("score ", JsonVal.num st.result.liveness_result.score),
   ("probability ", JsonVal.num st.result.liveness_result.probability),
   ("quality ", JsonVal.num st.result.quality_result.score),
   ("liveness result ", JsonVal.str (verdictString st.result)),
   ("state ", JsonVal.str (if st.err = STATUS_OK then "OK" else st.msg))]

/-- Key lookup in the assembled JSON object (first binding wins). -/
def jsonLookup (key : String) : List (String × JsonVal) → Option JsonVal
  | [] => none
  | p :: rest => if p.1 = key then some p.2 else jsonLookup key rest

/-- Rendering of a JSON value for the response body. -/
def jsonValString : JsonVal → String
  | JsonVal.num q => toString q
  | JsonVal.str s => "\"" ++ s ++ "\""

/-- `Stringifier::stringify(root, oss)` (MIServer.cpp:224), rendering the
object in insertion order. -/
def stringifyRoot (ps : List (String × JsonVal)) : String :=
  "\x7b" ++
    String.intercalate ","
      (ps.map (fun p => "\"" ++ p.1 ++ "\":" ++ jsonValString p.2)) ++
  "\x7d"

/-- HTTP response as produced by the handler: status code, content type and
body text (headers are a fixed CORS set on every path, MIServer.cpp:234-236,
246-248, 276-278, and are not modelled further). -/
structure Response where
  status : Nat
  contentType : String
  body : String
deriving Repr, DecidableEq

/-- `HTTPResponse::HTTP_OK`. -/
def HTTP_OK : Nat := 200

/-- `HTTPResponse::HTTP_CONFLICT` (MIServer.cpp:243). -/
def HTTP_CONFLICT : Nat := 409

/-- The response of `MyRequestHandler::OnNoLicense` (MIServer.cpp:271-282):
status 200, plain text, body "Please input license.". -/
def onNoLicenseResponse : Response :=
  { status := HTTP_OK, contentType := "text/plain", body := "Please input license." }

/-- The credential test of MIServer.cpp:119:
`lv_pstRes == NULL || lv_pstRes->m_lExpire < now_c`. -/
def noCredential (cred : Option STRESPONSE) (now : Int) : Bool :=
  match cred with
  | none => true
  | some r => r.m_lExpire < now

/-- The ingestion stage of MIServer.cpp:132-164: the body parse/decode either
yields the file bytes or raises a fault, which the handler catches by
substituting the empty string (`FileImage = ""`, MIServer.cpp:163). -/
def ingestedImage (r : Except Fault String) : String :=
  match r with
  | Except.ok s => s
  | Except.error _ => ""

/-- The environment one request executes in: the snapshot of the shared
credential record `lv_pstRes`, the current time `now_c`, the result of the
body parse/decode (multipart or base64 mode), the engine's behavior per
attempt, and an optional fault raised during response assembly
(MIServer.cpp:201-224) before the temp-file removal point. -/
structure Env where
  credential : Option STRESPONSE
  now : Int
  ingest : Except Fault String
  att : Nat → EngineOutcome
  assembleFault : Option Fault

/-- Everything observable about one run of `OnProcessProc`: the response, the
staging of the temp file (created at MIServer.cpp:167-170, content recorded),
whether `std::remove` ran (MIServer.cpp:228), the engine-loop event trace, the
final loop state (when the loop completed) and the assembled JSON object
(when one was produced). -/
structure HandlerOutcome where
  response : Response
  fileStaged : Bool
  stagedContent : Option String
  fileRemoved : Bool
  events : List LoopEvent
  loopState : Option LoopState
  json : Option (List (String × JsonVal))
deriving Repr, DecidableEq

/-- `MyRequestHandler::OnProcessProc` (MIServer.cpp:108-256).  `ndebug` is the
NDEBUG build-mode flag guarding the credential check (MIServer.cpp:118-123).
After the check, the body is ingested (faults swallowed to ""), the bytes are
written to the uniquely named temp file, and the attempt loop runs inside the
`try` of MIServer.cpp:172-240: on completion the JSON object is assembled and
stringified, the temp file is removed, and a 200 response carries the body;
a fault from the loop or from assembly is caught at MIServer.cpp:241-252 and
mapped to a 409 response whose body is the fault's display text — that catch
block does not remove the temp file. -/
def onProcessProc (ndebug : Bool) (env : Env) : HandlerOutcome :=
  if ndebug && noCredential env.credential env.now then
    { response := onNoLicenseResponse, fileStaged := false, stagedContent := none,
      fileRemoved := false, events := [], loopState := none, json := none }
  else
    let fileImage := ingestedImage env.ingest
    match attemptLoop env.att with
    | (Except.error e, evs) =>
      { response := { status := HTTP_CONFLICT, contentType := "application/json",
                      body := e.displayText },
        fileStaged := true, stagedContent := some fileImage, fileRemoved := false,
        events := evs, loopState := none, json := none }
    | (Except.ok st, evs) =>
      match env.assembleFault with
      | some e =>
        { response := { status := HTTP_CONFLICT, contentType := "application/json",
                        body := e.displayText },
          fileStaged := true, stagedContent := some fileImage, fileRemoved := false,
          events := evs, loopState := some st, json := none }
      | none =>
        let root := mkRoot st
        { response := { status := HTTP_OK, contentType := "application/json",
                        body := stringifyRoot root },
          fileStaged := true, stagedContent := some fileImage, fileRemoved := true,
          events := evs, loopState := some st, json := some root }

/-- The initial value of the module-level pointer `lv_pstRes`
(`ST_RESPONSE* lv_pstRes = NULL;`, MIServer.cpp:34). -/
def lvPstResInitial : Option STRESPONSE := none

/-- What one call of the credential-store primitive `mil_read_license(p)`
produces: its integer return value and the record contents it wrote into the
passed buffer. -/
structure LicResult where
  count : Int
  record : STRESPONSE
deriving Repr, DecidableEq

/-- The credential cache after the launch-time block of
`ClaHTTPServerWrapper::launch` (MIServer.cpp:80-87): if `lv_pstRes` is NULL, a
record is allocated, `mil_read_license` fills it, and a non-positive return
frees it back to NULL; otherwise the existing record is kept and no read
occurs. -/
def launchInitCache (initial : Option STRESPONSE) (readLic : LicResult) :
    Option STRESPONSE :=
  match initial with
  | some r => some r
  | none => if readLic.count ≤ 0 then none else some readLic.record

/-- Observable actions of `ClaHTTPServerWrapper::launch`
(MIServer.cpp:78-92). -/
inductive LaunchEvent
  | readLicense
  | spawnRefreshThread
  | runServer
deriving Repr, DecidableEq

/-- The action sequence of `launch` (MIServer.cpp:78-92): the synchronous
license read inside the `lv_pstRes == NULL` block, then `CreateThread` on
`TF_READ_LIC`, then `run()`. -/
def launchTrace (initial : Option STRESPONSE) : List LaunchEvent :=
  (match initial with
   | none => [LaunchEvent.readLicense]
   | some _ => []) ++ [LaunchEvent.spawnRefreshThread, LaunchEvent.runServer]

/-- Observable actions of one iteration of the refresh loop `TF_READ_LIC`
(MIServer.cpp:56-72). -/
inductive RefreshEvent
  | sleepMs (ms : Nat)
  | readLicense
  | replaceCache
deriving Repr, DecidableEq

/-- One iteration of the `while (TRUE)` body of `TF_READ_LIC`
(MIServer.cpp:56-72): `Sleep(10 * 1000)`, then `mil_read_license`, then the
cache replacement. -/
def refreshIteration : List RefreshEvent :=
  [RefreshEvent.sleepMs (10 * 1000), RefreshEvent.readLicense, RefreshEvent.replaceCache]

/-- The cache replacement performed by one refresh iteration
(MIServer.cpp:62-71): a non-positive read frees the shared record (cache
absent), otherwise the read record is copied into the cache. -/
def refreshStep (readLic : LicResult) : Option STRESPONSE :=
  if readLic.count ≤ 0 then none else some readLic.record

/-- Characters skipped by `Poco::Base64Decoder` in its default mode (the mode
selected by the constructor call at MIServer.cpp:153): space, CR, TAB, LF are
consumed and ignored wherever they occur in the encoded stream. -/
def b64skip (c : Char) : Bool :=
  c = ' ' || c = '\r' || c = '\t' || c = '\n'

/-- Value of a base64 alphabet character, `none` for characters outside the
alphabet. -/
def b64val (c : Char) : Option Nat :=
  if 'A' ≤ c ∧ c ≤ 'Z' then some (c.toNat - 65)
  else if 'a' ≤ c ∧ c ≤ 'z' then some (c.toNat - 97 + 26)
  else if '0' ≤ c ∧ c ≤ '9' then some (c.toNat - 48 + 52)
  else if c = '+' then some 62
  else if c = '/' then some 63
  else none

/-- Modelled from the spec: the quad-decoding core of `Poco::Base64Decoder`
(the vendored Poco implementation is not under src/ — only the package
metadata of poco_x64-windows is present).  Groups of four alphabet characters
decode to three bytes; a `=` in third position ends the stream after one byte,
a `=` in fourth position after two bytes; a truncated group or a character
outside the alphabet is a decode error. -/
def base64DecodeCore : List Char → Option (List Nat)
  | [] => some []
  | c1 :: c2 :: c3 :: c4 :: rest =>
    match b64val c1, b64val c2 with
    | some v1, some v2 =>
      if c3 = '=' then some [(v1 * 4 + v2 / 16) % 256]
      else
        match b64val c3 with
        | some v3 =>
          if c4 = '=' then
            some [(v1 * 4 + v2 / 16) % 256, (v2 % 16 * 16 + v3 / 4) % 256]
          else
            match b64val c4 with
            | some v4 =>
              (fun tl => (v1 * 4 + v2 / 16) % 256 ::
                         (v2 % 16 * 16 + v3 / 4) % 256 ::
                         (v3 % 4 * 64 + v4) % 256 :: tl) <$> base64DecodeCore rest
            | none => none
        | none => none
    | _, _ => none
  | _ => none

/-- Modelled from the spec: `Poco::Base64Decoder` in default mode as used at
MIServer.cpp:152-154 — every space/CR/TAB/LF is skipped before the group
decode, so the decoded bytes are those of the filtered character stream.
`none` stands for the decode error the decoder would raise. -/
def pocoBase64Decode (s : List Char) : Option (List Nat) :=
  base64DecodeCore (s.filter (fun c => !b64skip c))

/-- Removal of every embedded CR-LF sequence, scanning left to right: the
"same string with the CRLF sequences removed" against which the sanitization
property compares a payload (the effect the repository documents for
`replaceAll(encodedImage, CRLF, empty)`, cf. replaceAll at
MIServer.cpp:38-45). -/
def stripCRLF : List Char → List Char
  | [] => []
  | [c] => [c]
  | c1 :: c2 :: rest =>
    if c1 = '\r' ∧ c2 = '\n' then stripCRLF rest
    else c1 :: stripCRLF (c2 :: rest)

/-- A sample engine result classified as genuine: quality 3/4, probability
exactly 1/2 (the inclusive boundary). -/
def cResC1 : CPipelineResult :=
  { quality_result := { score := 3/4, class_flag := true, ok := true },
    liveness_result := { score := 1/4, probability := 1/2, ok := true } }

/-- Concrete request environment for exercising the classification path. -/
def cEnvC1 : Env :=
  { credential := some { m_nProduct := 1, m_lExpire := 100 }, now := 0,
    ingest := Except.ok "image-bytes",
    att := fun _ => EngineOutcome.ok cResC1 STATUS_OK "fine",
    assembleFault := none }

/-- The final loop state produced by `cEnvC1`. -/
def cStC1 : LoopState := { result := cResC1, err := STATUS_OK, msg := "fine" }

/-- An engine behavior whose first attempt reports the credential-retry
signature in mixed case and whose second attempt succeeds. -/
def cAttC2 (i : Nat) : EngineOutcome :=
  if i = 0 then
    EngineOutcome.ok
      { quality_result := { score := 0, class_flag := false, ok := false },
        liveness_result := { score := 0, probability := 0, ok := false } }
      20 "LICENSE ERROR: License Is Not Installed"
  else
    EngineOutcome.ok cResC1 STATUS_OK "done"

/-- A request environment whose cached credential is expired. -/
def cEnvC3 : Env :=
  { credential := some { m_nProduct := 1, m_lExpire := 5 }, now := 10,
    ingest := Except.ok "image-bytes",
    att := fun _ => EngineOutcome.fault { displayText := "never reached" },
    assembleFault := none }

/-- A request environment whose engine invocation raises a fault. -/
def cEnvC4 : Env :=
  { credential := some { m_nProduct := 1, m_lExpire := 100 }, now := 0,
    ingest := Except.ok "image-bytes",
    att := fun _ => EngineOutcome.fault { displayText := "boom" },
    assembleFault := none }

/-- A request environment that completes normally (for the cleanup witness). -/
def cEnvC4w : Env :=
  { credential := some { m_nProduct := 1, m_lExpire := 100 }, now := 0,
    ingest := Except.ok "image-bytes",
    att := fun _ => EngineOutcome.ok cResC1 STATUS_OK "fine",
    assembleFault := none }

/-- A request environment whose body parse fails. -/
def cEnvC6 : Env :=
  { credential := some { m_nProduct := 1, m_lExpire := 100 }, now := 0,
    ingest := Except.error { displayText := "malformed multipart" },
    att := fun _ => EngineOutcome.ok cResC1 STATUS_OK "fine",
    assembleFault := none }

/-- An engine result for the state-field counterexample. -/
def cResC7 : CPipelineResult :=
  { quality_result := { score := 9/10, class_flag := true, ok := true },
    liveness_result := { score := 1/2, probability := 7/10, ok := true } }

/-- A request environment whose engine attempt returns error code 0
(`FACE_TOO_CLOSE`, not the `OK` sentinel 23) with message text "OK". -/
def cEnvC7 : Env :=
  { credential := some { m_nProduct := 1, m_lExpire := 100 }, now := 0,
    ingest := Except.ok "image-bytes",
    att := fun _ => EngineOutcome.ok cResC7 0 "OK",
    assembleFault := none }

/-- The final loop state produced by `cEnvC7`. -/
def cStC7 : LoopState := { result := cResC7, err := 0, msg := "OK" }

/-- A request environment for the amended state-field witness: the engine
reports a non-OK error code with a distinctive message. -/
def cEnvC7w : Env :=
  { credential := some { m_nProduct := 1, m_lExpire := 100 }, now := 0,
    ingest := Except.ok "image-bytes",
    att := fun _ => EngineOutcome.ok cResC7 3 "Face detector can not find face on image",
    assembleFault := none }

/-- The final loop state produced by `cEnvC7w`. -/
def cStC7w : LoopState :=
  { result := cResC7, err := 3, msg := "Face detector can not find face on image" }

/-- A request environment whose engine invocation raises a fault (fault-path
witness for the conflict response). -/
def cEnvC8 : Env :=
  { credential := some { m_nProduct := 1, m_lExpire := 100 }, now := 0,
    ingest := Except.ok "image-bytes",
    att := fun _ => EngineOutcome.fault { displayText := "kaboom" },
    assembleFault := none }

theorem jsonLookup_liveness (st : LoopState) :
    jsonLookup "liveness result " (mkRoot st) =
      some (JsonVal.str (verdictString st.result)) := by
  simp [mkRoot, jsonLookup]

theorem jsonLookup_state (st : LoopState) :
    jsonLookup "state " (mkRoot st) =
      some (JsonVal.str (if st.err = STATUS_OK then "OK" else st.msg)) := by
  simp [mkRoot, jsonLookup]

theorem jsonLookup_score (st : LoopState) :
    jsonLookup "score " (mkRoot st) =
      some (JsonVal.num st.result.liveness_result.score) := by
  simp [mkRoot, jsonLookup]

theorem jsonLookup_probability (st : LoopState) :
    jsonLookup "probability " (mkRoot st) =
      some (JsonVal.num st.result.liveness_result.probability) := by
  simp [mkRoot, jsonLookup]

theorem jsonLookup_quality (st : LoopState) :
    jsonLookup "quality " (mkRoot st) =
      some (JsonVal.num st.result.quality_result.score) := by
  simp [mkRoot, jsonLookup]

theorem json_some_normal (ndebug : Bool) (env : Env) (root : List (String × JsonVal))
    (h : (onProcessProc ndebug env).json = some root) :
    ∃ st evs, attemptLoop env.att = (Except.ok st, evs) ∧ env.assembleFault = none ∧
      root = mkRoot st ∧ (onProcessProc ndebug env).loopState = some st ∧
      (onProcessProc ndebug env).response.status = HTTP_OK := by
  rcases h2 : attemptLoop env.att with ⟨res, evs⟩
  by_cases hc : (ndebug && noCredential env.credential env.now) = true <;>
    cases res <;> cases haf : env.assembleFault <;>
      simp [onProcessProc, h2, haf, hc] at h ⊢
  exact h.symm

theorem verdict_bad (r : CPipelineResult) (hq : r.quality_result.score < 1/2) :
    verdictString r = "Image has a bad quality" := by
  rw [verdictString, if_pos hq]

theorem verdict_genuine (r : CPipelineResult) (hq : ¬ r.quality_result.score < 1/2)
    (hp : 1/2 ≤ r.liveness_result.probability) :
    verdictString r = "Image is genuine" := by
  rw [verdictString, if_neg hq, if_pos hp]

theorem verdict_spoofed (r : CPipelineResult) (hq : ¬ r.quality_result.score < 1/2)
    (hp : ¬ 1/2 ≤ r.liveness_result.probability) :
    verdictString r = "Image is spoofed" := by
  rw [verdictString, if_neg hq, if_neg hp]

/-- Claim C1: for every request that reaches finalization, the verdict emitted
in the "liveness result " field is computed from the final attempt's result in
source order, first match wins: quality score < 0.5 gives "Image has a bad
quality" regardless of probability; otherwise liveness probability ≥ 0.5
(inclusive, so probability exactly 0.5 is genuine) gives "Image is genuine";
otherwise "Image is spoofed"; and quality exactly 0.5 is not bad quality. -/
theorem verdict_of_final_attempt (ndebug : Bool) (env : Env) (st : LoopState)
    (root : List (String × JsonVal))
    (hjson : (onProcessProc ndebug env).json = some root)
    (hst : (onProcessProc ndebug env).loopState = some st) :
    jsonLookup "liveness result " root = some (JsonVal.str (verdictString st.result))
    ∧ (st.result.quality_result.score < 1/2 →
        verdictString st.result = "Image has a bad quality")
    ∧ (1/2 ≤ st.result.quality_result.score →
        1/2 ≤ st.result.liveness_result.probability →
        verdictString st.result = "Image is genuine")
    ∧ (1/2 ≤ st.result.quality_result.score →
        st.result.liveness_result.probability < 1/2 →
        verdictString st.result = "Image is spoofed")
    ∧ (st.result.quality_result.score = 1/2 →
        verdictString st.result ≠ "Image has a bad quality") := by
  obtain ⟨st', evs, hloop, haf, hroot, hst', hstatus⟩ :=
    json_some_normal ndebug env root hjson
  obtain rfl : st = st' := Option.some.inj (hst.symm.trans hst')
  subst hroot
  refine ⟨jsonLookup_liveness st, ?_, ?_, ?_, ?_⟩
  · exact fun hq => verdict_bad _ hq
  · exact fun hq hp => verdict_genuine _ (not_lt.2 hq) hp
  · exact fun hq hp => verdict_spoofed _ (not_lt.2 hq) (not_le.2 hp)
  · intro hq
    have hq' : ¬ st.result.quality_result.score < 1/2 := by
      rw [hq]; exact lt_irrefl _
    by_cases hp : 1/2 ≤ st.result.liveness_result.probability
    · rw [verdict_genuine _ hq' hp]; decide
    · rw [verdict_spoofed _ hq' hp]; decide

/-- Witness for `verdict_of_final_attempt`: a concrete request with quality
3/4 and probability exactly 1/2 is classified genuine. -/
theorem verdict_of_final_attempt_witness :
    jsonLookup "liveness result " (mkRoot cStC1) =
      some (JsonVal.str (verdictString cStC1.result))
    ∧ verdictString cStC1.result = "Image is genuine" := by
  have h := verdict_of_final_attempt true cEnvC1 cStC1 (mkRoot cStC1)
    (by rfl) (by rfl)
  exact ⟨h.1, h.2.2.1 (by norm_num [cStC1, cResC1]) (by norm_num [cStC1, cResC1])⟩

theorem runAttempts_invoke_bound (att : Nat → EngineOutcome) :
    ∀ (fuel i : Nat) (st : LoopState) (evs : List LoopEvent) (j : Nat),
      LoopEvent.invoke j ∈ (runAttempts att fuel i st evs).2 →
      LoopEvent.invoke j ∈ evs ∨ (i ≤ j ∧ j < i + fuel) := by
  intro fuel
  induction fuel with
  | zero =>
    intro i st evs j h
    simp [runAttempts] at h
    exact Or.inl h
  | succ n ih =>
    intro i st evs j h
    rcases ha : att i with ⟨r, e, m⟩ | ⟨f⟩
    · by_cases hm : stricmpEq m licenseErrorLiteral
      · simp only [runAttempts, ha, hm, if_true] at h
        rcases ih (i + 1) _ _ j h with h' | h'
        · simp only [List.append_assoc, List.mem_append, List.mem_singleton,
            List.mem_cons] at h'
          rcases h' with h'' | h''
          · exact Or.inl h''
          · rcases h'' with h3 | h3 | h3 | h3 <;> simp_all
        · right; omega
      · simp only [runAttempts, ha, if_neg hm] at h
        simp only [List.mem_append, List.mem_singleton] at h
        rcases h with h' | h'
        · exact Or.inl h'
        · right
          have : j = i := by simpa using h'
          omega
    · simp only [runAttempts, ha] at h
      simp only [List.mem_append, List.mem_singleton] at h
      rcases h with h' | h'
      · exact Or.inl h'
      · right
        have : j = i := by simpa using h'
        omega

theorem attemptLoop_invoke_zero (att : Nat → EngineOutcome) :
    LoopEvent.invoke 0 ∈ (attemptLoop att).2 := by
  unfold attemptLoop
  rcases ha : att 0 with ⟨r, e, m⟩ | ⟨f⟩
  · by_cases hm : stricmpEq m licenseErrorLiteral
    · rcases ha1 : att 1 with ⟨r1, e1, m1⟩ | ⟨f1⟩
      · by_cases hm1 : stricmpEq m1 licenseErrorLiteral <;>
          simp [runAttempts, ha, hm, ha1, hm1]
      · simp [runAttempts, ha, hm, ha1]
    · simp [runAttempts, ha, hm]
  · simp [runAttempts, ha]


/-- Claim C2: the attempt loop runs at most 2 attempts. -/
theorem attempt_loop_retry_protocol (att : Nat → EngineOutcome) :
    (∀ att2 : Nat → EngineOutcome, (∀ i, i < 2 → att i = att2 i) →
        attemptLoop att = attemptLoop att2)
    ∧ (∀ j, LoopEvent.invoke j ∈ (attemptLoop att).2 → j < 2)
    ∧ (∀ r e m, att 0 = EngineOutcome.ok r e m →
        stricmpEq m licenseErrorLiteral = false →
        attemptLoop att =
          (Except.ok { result := r, err := e, msg := m }, [LoopEvent.invoke 0]))
    ∧ (∀ r e m r1 e1 m1, att 0 = EngineOutcome.ok r e m →
        stricmpEq m licenseErrorLiteral = true →
        att 1 = EngineOutcome.ok r1 e1 m1 →
        attemptLoop att =
          (Except.ok { result := r1, err := e1, msg := m1 },
           [LoopEvent.invoke 0, LoopEvent.destroyPipeline, LoopEvent.settingInit 1,
            LoopEvent.invoke 1] ++
           (if stricmpEq m1 licenseErrorLiteral = true then
             [LoopEvent.destroyPipeline, LoopEvent.settingInit 1] else []))) := by
  refine ⟨?_, ?_, ?_, ?_⟩
  · intro att2 hag
    have h0 : att2 0 = att 0 := (hag 0 (by omega)).symm
    have h1 : att2 1 = att 1 := (hag 1 (by omega)).symm
    unfold attemptLoop
    simp only [runAttempts, h0, h1]
  · intro j hj
    rcases runAttempts_invoke_bound att 2 0 initLoopState [] j hj with h | h
    · simp at h
    · omega
  · intro r e m h0 hm
    simp [attemptLoop, runAttempts, h0, hm]
  · intro r e m r1 e1 m1 h0 hm h1
    by_cases hm1 : stricmpEq m1 licenseErrorLiteral <;>
      simp [attemptLoop, runAttempts, h0, hm, h1, hm1]

/-- Witness for `attempt_loop_retry_protocol`. -/
theorem attempt_loop_retry_protocol_witness :
    attemptLoop cAttC2 =
      (Except.ok { result := cResC1, err := STATUS_OK, msg := "done" },
       [LoopEvent.invoke 0, LoopEvent.destroyPipeline, LoopEvent.settingInit 1,
        LoopEvent.invoke 1]) := by
  have h := (attempt_loop_retry_protocol cAttC2).2.2.2
    { quality_result := { score := 0, class_flag := false, ok := false },
      liveness_result := { score := 0, probability := 0, ok := false } }
    20 "LICENSE ERROR: License Is Not Installed" cResC1 STATUS_OK "done"
    rfl (by decide) rfl
  have hd : stricmpEq "done" licenseErrorLiteral = false := by decide
  simp only [hd, Bool.false_eq_true, if_false, List.append_nil] at h
  exact h

/-- Claim C3: in production (NDEBUG) builds, an absent credential record or an
expiration instant earlier than the current time yields status 200 with
plain-text body "Please input license." and the engine is never invoked. -/
theorem no_credential_short_circuit (env : Env)
    (h : noCredential env.credential env.now = true) :
    onProcessProc true env =
      { response := { status := 200, contentType := "text/plain",
                      body := "Please input license." },
        fileStaged := false, stagedContent := none, fileRemoved := false,
        events := [], loopState := none, json := none }
    ∧ (∀ i, LoopEvent.invoke i ∉ (onProcessProc true env).events) := by
  constructor
  · simp [onProcessProc, h, onNoLicenseResponse, HTTP_OK]
  · intro i
    simp [onProcessProc, h]

/-- Witness for `no_credential_short_circuit`: a request arriving at time 10
with a credential that expired at time 5 is short-circuited. -/
theorem no_credential_short_circuit_witness :
    onProcessProc true cEnvC3 =
      { response := { status := 200, contentType := "text/plain",
                      body := "Please input license." },
        fileStaged := false, stagedContent := none, fileRemoved := false,
        events := [], loopState := none, json := none } :=
  (no_credential_short_circuit cEnvC3 (by decide)).1

/-- Claim C4 is refuted at a concrete input: a fault raised during the engine
invocation reaches the catch block, which produces the 409 response without
removing the staged temporary file. -/
theorem staged_file_leak_on_fault_cex :
    (onProcessProc true cEnvC4).fileStaged = true
    ∧ (onProcessProc true cEnvC4).fileRemoved = false
    ∧ (onProcessProc true cEnvC4).response.status = HTTP_CONFLICT := by
  refine ⟨rfl, rfl, rfl⟩

/-- Claim C4 (amended): for every request that reaches processing, the staged
temporary file is created, and it is removed before the response exactly when
the try block completes without a fault (success or engine-error outcome); a
fault raised during invocation or response assembly leaves the file in
place. -/
theorem staged_file_cleanup_paths (ndebug : Bool) (env : Env)
    (h : (ndebug && noCredential env.credential env.now) = false) :
    (onProcessProc ndebug env).fileStaged = true
    ∧ ((onProcessProc ndebug env).fileRemoved = true ↔
        (∃ st evs, attemptLoop env.att = (Except.ok st, evs)) ∧
          env.assembleFault = none) := by
  rcases h2 : attemptLoop env.att with ⟨res, evs⟩
  cases res <;> cases haf : env.assembleFault <;>
    simp [onProcessProc, h, h2, haf]

/-- Witness for `staged_file_cleanup_paths`: a request that completes
normally has its staged file removed. -/
theorem staged_file_cleanup_paths_witness :
    (onProcessProc true cEnvC4w).fileStaged = true
    ∧ (onProcessProc true cEnvC4w).fileRemoved = true := by
  have h := staged_file_cleanup_paths true cEnvC4w (by decide)
  exact ⟨h.1, h.2.mpr ⟨⟨{ result := cResC1, err := STATUS_OK, msg := "fine" },
    [LoopEvent.invoke 0], by rfl⟩, rfl⟩⟩

/-- Claim C6: a body whose multipart/JSON parse or base64 decode fails is
ingested as the empty byte buffer rather than as an error; the empty buffer
is still staged to the temporary file, and processing continues into the
engine attempt loop. -/
theorem ingest_failure_empty_buffer_continues (ndebug : Bool) (env : Env) (f : Fault)
    (hcred : (ndebug && noCredential env.credential env.now) = false)
    (hing : env.ingest = Except.error f) :
    ingestedImage env.ingest = ""
    ∧ (onProcessProc ndebug env).fileStaged = true
    ∧ (onProcessProc ndebug env).stagedContent = some ""
    ∧ LoopEvent.invoke 0 ∈ (onProcessProc ndebug env).events := by
  have hzero := attemptLoop_invoke_zero env.att
  rcases h2 : attemptLoop env.att with ⟨res, evs⟩
  rw [h2] at hzero
  cases res <;> cases haf : env.assembleFault <;>
    simp [onProcessProc, hcred, h2, haf, ingestedImage, hing] at hzero ⊢ <;>
    exact hzero

/-- Witness for `ingest_failure_empty_buffer_continues`: a malformed multipart
body is staged as the empty buffer and the engine still runs. -/
theorem ingest_failure_empty_buffer_continues_witness :
    ingestedImage cEnvC6.ingest = ""
    ∧ (onProcessProc true cEnvC6).stagedContent = some ""
    ∧ LoopEvent.invoke 0 ∈ (onProcessProc true cEnvC6).events := by
  have h := ingest_failure_empty_buffer_continues true cEnvC6
    { displayText := "malformed multipart" } (by decide) rfl
  exact ⟨h.1, h.2.2.1, h.2.2.2⟩

/-- Claim C7 is refuted at a concrete input: an engine attempt returning error
code 0 (`FACE_TOO_CLOSE`, not the `OK` sentinel 23) with message text "OK"
produces a response whose state field is the string "OK" even though the
final attempt's error code is not the no-error sentinel, so the "only if"
direction of the claim fails. -/
theorem state_ok_without_ok_sentinel_cex :
    (onProcessProc true cEnvC7).loopState = some cStC7
    ∧ (onProcessProc true cEnvC7).json = some (mkRoot cStC7)
    ∧ jsonLookup "state " (mkRoot cStC7) = some (JsonVal.str "OK")
    ∧ cStC7.err ≠ STATUS_OK := by
  refine ⟨rfl, rfl, ?_, by decide⟩
  rfl

/-- Claim C7 (amended): on the normal (non-fault) path the response status is
200, the state field is "OK" when the final attempt's error code equals the
no-error sentinel and is otherwise the raw engine message (a message that
itself spells "OK" is passed through verbatim), and the numeric
score/probability/quality fields carry the last attempt's values. -/
theorem state_field_from_final_attempt (ndebug : Bool) (env : Env) (st : LoopState)
    (root : List (String × JsonVal))
    (hjson : (onProcessProc ndebug env).json = some root)
    (hst : (onProcessProc ndebug env).loopState = some st) :
    (onProcessProc ndebug env).response.status = 200
    ∧ jsonLookup "state " root =
        some (JsonVal.str (if st.err = STATUS_OK then "OK" else st.msg))
    ∧ (st.err = STATUS_OK → jsonLookup "state " root = some (JsonVal.str "OK"))
    ∧ (st.err ≠ STATUS_OK → jsonLookup "state " root = some (JsonVal.str st.msg))
    ∧ jsonLookup "score " root = some (JsonVal.num st.result.liveness_result.score)
    ∧ jsonLookup "probability " root =
        some (JsonVal.num st.result.liveness_result.probability)
    ∧ jsonLookup "quality " root = some (JsonVal.num st.result.quality_result.score) := by
  obtain ⟨st', evs, hloop, haf, hroot, hst', hstatus⟩ :=
    json_some_normal ndebug env root hjson
  obtain rfl : st = st' := Option.some.inj (hst.symm.trans hst')
  subst hroot
  refine ⟨hstatus, jsonLookup_state st, ?_, ?_, jsonLookup_score st,
    jsonLookup_probability st, jsonLookup_quality st⟩
  · intro he; rw [jsonLookup_state st, if_pos he]
  · intro he; rw [jsonLookup_state st, if_neg he]

/-- Witness for `state_field_from_final_attempt`: an engine error with a
distinctive message is carried verbatim in the state field of a 200
response. -/
theorem state_field_from_final_attempt_witness :
    (onProcessProc true cEnvC7w).response.status = 200
    ∧ jsonLookup "state " (mkRoot cStC7w) =
        some (JsonVal.str "Face detector can not find face on image") := by
  have h := state_field_from_final_attempt true cEnvC7w cStC7w (mkRoot cStC7w)
    (by rfl) (by rfl)
  exact ⟨h.1, h.2.2.2.1 (by decide)⟩

/-- Claim C8: a fault raised inside the processing try block — during the
engine attempt loop or during response assembly — is caught at the handler
boundary and mapped to HTTP status 409 with the fault's display text as the
response body. -/
theorem fault_maps_to_conflict_response (ndebug : Bool) (env : Env)
    (hcred : (ndebug && noCredential env.credential env.now) = false) :
    (∀ e evs, attemptLoop env.att = (Except.error e, evs) →
      (onProcessProc ndebug env).response =
        { status := HTTP_CONFLICT, contentType := "application/json",
          body := e.displayText })
    ∧ (∀ st evs e, attemptLoop env.att = (Except.ok st, evs) →
        env.assembleFault = some e →
        (onProcessProc ndebug env).response =
          { status := HTTP_CONFLICT, contentType := "application/json",
            body := e.displayText }) := by
  constructor
  · intro e evs h2
    simp [onProcessProc, hcred, h2]
  · intro st evs e h2 haf
    simp [onProcessProc, hcred, h2, haf]

/-- Witness for `fault_maps_to_conflict_response`: a fault with display text
"kaboom" yields a 409 response with body "kaboom". -/
theorem fault_maps_to_conflict_response_witness :
    (onProcessProc true cEnvC8).response =
      { status := HTTP_CONFLICT, contentType := "application/json",
        body := "kaboom" } :=
  (fault_maps_to_conflict_response true cEnvC8 (by decide)).1
    { displayText := "kaboom" } [LoopEvent.invoke 0] (by rfl)

theorem stripCRLF_filter (p : Char → Bool) (hr : p '\r' = false) (hn : p '\n' = false) :
    ∀ s : List Char, (stripCRLF s).filter p = s.filter p := by
  intro s
  induction s using stripCRLF.induct with
  | case1 => rfl
  | case2 c => rfl
  | case3 c1 c2 rest hif ih =>
    obtain ⟨rfl, rfl⟩ := hif
    simp [stripCRLF, List.filter_cons, hr, hn, ih]
  | case4 c1 c2 rest hif ih =>
    simp only [stripCRLF, if_neg hif]
    simp [List.filter_cons, ih]

/-- Claim C5: in the base64-JSON ingestion mode, a base64 string containing
embedded CRLF sequences decodes to bytes identical to the decoding of the same
string with the CRLF sequences removed: the decoder consumes and ignores the
line-break characters before the group decode. -/
theorem base64_decode_crlf_invariant (s : List Char) :
    pocoBase64Decode (stripCRLF s) = pocoBase64Decode s := by
  unfold pocoBase64Decode
  rw [stripCRLF_filter (fun c => !b64skip c) (by decide) (by decide) s]

/-- Claim C10: at service launch with the module-level credential pointer in
its initial NULL state, exactly one synchronous license read happens, and it
happens before the refresh thread is spawned and before the HTTP run loop
starts; the resulting cache is absent exactly when the read returned a
non-positive count and otherwise holds the read record (the same snapshot a
refresh iteration would install); the refresh loop's first action is its
10-second sleep, so the cache replacement of its first iteration comes only
after that sleep. -/
theorem launch_time_credential_snapshot (readLic : LicResult) :
    launchTrace lvPstResInitial =
      [LaunchEvent.readLicense, LaunchEvent.spawnRefreshThread, LaunchEvent.runServer]
    ∧ (launchTrace lvPstResInitial).count LaunchEvent.readLicense = 1
    ∧ (launchInitCache lvPstResInitial readLic = none ↔ readLic.count ≤ 0)
    ∧ (launchInitCache lvPstResInitial readLic = some readLic.record ↔
        0 < readLic.count)
    ∧ launchInitCache lvPstResInitial readLic = refreshStep readLic
    ∧ refreshIteration.head? = some (RefreshEvent.sleepMs 10000)
    ∧ refreshIteration.indexOf RefreshEvent.replaceCache = 2 := by
  refine ⟨by decide, by decide, ?_, ?_, ?_, by decide, by decide⟩ <;>
    by_cases h : readLic.count ≤ 0 <;>
      simp [launchInitCache, refreshStep, lvPstResInitial, h]
  all_goals omega
